import Mathlib

/-!
Shallow embedding of the swcat catalog service (FastAPI + SQLModel + SQLite).

Data model: src/swcat/db/models.py (tables `software`, `release`) and
src/swcat/models.py (API payload/response shapes).
Handlers: src/src/swcat/app.py.
Engine: src/swcat/db/__init__.py (a plain SQLite engine; note that it never
enables `PRAGMA foreign_keys`, so SQLite does not enforce the declared
foreign key `release.software_id -> software.software_id`).

UUIDs are modelled as naturals, the store as lists of rows, and each handler
as a function from its arguments and the store to a result paired with the
store after the call.  A Python exception escaping the handler before commit
leaves the store unchanged and is modelled as an `Except.error`.
-/

namespace Swcat

/-- UUID values, modelled as naturals. -/
abbrev UUID := Nat

/-- Calendar date (`datetime.date`); only equality of dates matters here. -/
structure Date where
  year : Nat
  month : Nat
  day : Nat
deriving DecidableEq, Repr

/-- Row of the `software` table (src/swcat/db/models.py `Software`):
columns `software_id` (primary key), `display_name` (unique),
`maintainer_name`, `maintainer_email`.  The table has no `code_url` or
`description` column. -/
structure SoftwareSQL where
  software_id : UUID
  display_name : String
  maintainer_name : Option String
  maintainer_email : String
deriving DecidableEq, Repr

/-- Row of the `release` table (src/swcat/db/models.py `Release`):
columns `release_id` (primary key), `version`, `release_date`,
`software_id` (foreign key to `software.software_id`). -/
structure ReleaseSQL where
  release_id : UUID
  version : String
  release_date : Date
  software_id : UUID
deriving DecidableEq, Repr

/-- The persisted store: the two tables. -/
structure DB where
  softwares : List SoftwareSQL
  releases : List ReleaseSQL
deriving DecidableEq, Repr

/-- API payload `SoftwareCreate` (src/swcat/models.py `SoftwareBase`):
`code_url`, `description`, `display_name`, `maintainer_name`,
`maintainer_email`. -/
structure SoftwareCreate where
  code_url : Option String
  description : Option String
  display_name : String
  maintainer_name : Option String
  maintainer_email : String
deriving DecidableEq, Repr

/-- API response model `Software` (src/swcat/models.py): the payload fields
plus `software_id`. -/
structure Software where
  code_url : Option String
  description : Option String
  display_name : String
  maintainer_name : Option String
  maintainer_email : String
  software_id : UUID
deriving DecidableEq, Repr

/-- API payload `ReleaseCreate` (src/swcat/models.py `ReleaseBase`):
`version`, `release_date`. -/
structure ReleaseCreate where
  version : String
  release_date : Date
deriving DecidableEq, Repr

/-- API response model `Release` (src/swcat/models.py): payload fields plus
`release_id` and `software_id`. -/
structure Release where
  version : String
  release_date : Date
  release_id : UUID
  software_id : UUID
deriving DecidableEq, Repr

/-- Pydantic validation of a `SoftwareCreate` payload: `display_name` has
at least 2 characters, `description` at most 280; the `EmailStr` shape
check is abstracted as containing an at sign. -/
def SoftwareCreate.isValid (p : SoftwareCreate) : Bool :=
  decide (2 ≤ p.display_name.length) &&
  (match p.description with
   | none => true
   | some d => decide (d.length ≤ 280)) &&
  p.maintainer_email.data.contains '@'

/-- Pydantic validation of a `ReleaseCreate` payload: `version` has at
least 1 character. -/
def ReleaseCreate.isValid (p : ReleaseCreate) : Bool :=
  decide (1 ≤ p.version.length)

/-- Failures a handler can surface.  `integrityError` is sqlite refusing a
commit (UNIQUE or PRIMARY KEY violation); `attributeError` is Python
dereferencing `None` (missing `session.get` result used unguarded);
`unmappedInstanceError` is sqlalchemy `session.delete(None)`;
`noResultFound` and `multipleResultsFound` come from the strict `.one()`
fetch. -/
inductive DBError where
  | integrityError
  | attributeError
  | unmappedInstanceError
  | noResultFound
  | multipleResultsFound
deriving DecidableEq, Repr

deriving instance DecidableEq for Except

/-- Mapping a `software` row back to the API model,
`Software(**sw_sql.model_dump())`: the row has no `code_url` or
`description` column, so the API model fills them with their `None`
defaults. -/
def toSoftwareOut (r : SoftwareSQL) : Software :=
  { code_url := none
    description := none
    display_name := r.display_name
    maintainer_name := r.maintainer_name
    maintainer_email := r.maintainer_email
    software_id := r.software_id }

/-- Mapping a `release` row back to the API model,
`Release(**rel_sql.model_dump())`. -/
def toReleaseOut (r : ReleaseSQL) : Release :=
  { version := r.version
    release_date := r.release_date
    release_id := r.release_id
    software_id := r.software_id }

/-- `session.get(SoftwareSQL, software_id)`: primary-key lookup, `None`
when absent. -/
def sessionGetSoftware (db : DB) (sid : UUID) : Option SoftwareSQL :=
  db.softwares.find? (fun r => r.software_id == sid)

/-- Handler `create_software` (app.py lines 28-36).  `SoftwareSQL` drops
the payload keys that are not table columns (`code_url`, `description`);
`newId` stands for the generated `uuid4` primary key; `session.commit`
raises `IntegrityError` when the UNIQUE index on `display_name` or the
primary key would be violated, persisting nothing. -/
def create_software (payload : SoftwareCreate) (newId : UUID) (db : DB) :
    Except DBError Software × DB :=
  let row : SoftwareSQL :=
    { software_id := newId
      display_name := payload.display_name
      maintainer_name := payload.maintainer_name
      maintainer_email := payload.maintainer_email }
  if db.softwares.any
      (fun r => r.display_name == row.display_name || r.software_id == row.software_id)
  then (.error .integrityError, db)
  else (.ok (toSoftwareOut row), { db with softwares := db.softwares ++ [row] })

/-- Handler `list_softwares` (app.py lines 39-51).  The filter is guarded
by Python truthiness (`if display_name:`), so both `None` and the empty
string leave the statement unfiltered. -/
def list_softwares (display_name : Option String) (db : DB) : List Software :=
  match display_name with
  | none => db.softwares.map toSoftwareOut
  | some d =>
    if d = "" then db.softwares.map toSoftwareOut
    else (db.softwares.filter (fun r => r.display_name == d)).map toSoftwareOut

/-- Handler `get_software` (app.py lines 54-58).  The `session.get` result
is used without a presence check: on a missing id,
`None.model_dump()` raises `AttributeError`. -/
def get_software (sid : UUID) (db : DB) : Except DBError Software × DB :=
  match sessionGetSoftware db sid with
  | none => (.error .attributeError, db)
  | some row => (.ok (toSoftwareOut row), db)

/-- Handler `update_software` (app.py lines 61-74).  On a missing id the
`setattr` loop dereferences `None` and raises before any commit.  Otherwise
exactly `display_name`, `maintainer_name` and `maintainer_email` are
overwritten and committed; the commit raises `IntegrityError` (persisting
nothing) when another row already holds the new `display_name`. -/
def update_software (sid : UUID) (payload : SoftwareCreate) (db : DB) :
    Except DBError Software × DB :=
  match sessionGetSoftware db sid with
  | none => (.error .attributeError, db)
  | some row =>
    let row' : SoftwareSQL :=
      { row with
        display_name := payload.display_name
        maintainer_name := payload.maintainer_name
        maintainer_email := payload.maintainer_email }
    if db.softwares.any
        (fun r => r.software_id != sid && r.display_name == payload.display_name)
    then (.error .integrityError, db)
    else
      (.ok (toSoftwareOut row'),
        { db with
          softwares := db.softwares.map (fun r => if r.software_id == sid then row' else r) })

/-- Handler `delete_software` (app.py lines 77-82).  On a missing id,
`session.delete(None)` raises `UnmappedInstanceError` before any commit.
Otherwise the row is deleted; the ORM relationship
`Software.releases` is declared with `cascade_delete=True`, so the delete
cascades to every `release` row whose `software_id` is this primary key. -/
def delete_software (sid : UUID) (db : DB) : Except DBError Unit × DB :=
  match sessionGetSoftware db sid with
  | none => (.error .unmappedInstanceError, db)
  | some _ =>
    (.ok (),
      { softwares := db.softwares.filter (fun r => r.software_id != sid)
        releases := db.releases.filter (fun r => r.software_id != sid) })

/-- Handler `create_release` (app.py lines 85-95).  `newId` stands for the
generated `uuid4` primary key.  The engine (src/swcat/db/__init__.py) is a
plain SQLite engine that never issues `PRAGMA foreign_keys=ON`, so the
foreign key declared on `release.software_id` is NOT enforced at commit:
the insert succeeds even when `software_id` matches no `software` row.
Only the primary-key constraint can reject the commit. -/
def create_release (sid : UUID) (payload : ReleaseCreate) (newId : UUID) (db : DB) :
    Except DBError Release × DB :=
  let row : ReleaseSQL :=
    { release_id := newId
      version := payload.version
      release_date := payload.release_date
      software_id := sid }
  if db.releases.any (fun r => r.release_id == newId)
  then (.error .integrityError, db)
  else (.ok (toReleaseOut row), { db with releases := db.releases ++ [row] })

/-- Path segment of `list_releases`: either a concrete software id or the
literal `"-"` wildcard. -/
inductive SoftwareSelector where
  | wildcard
  | sid (u : UUID)
deriving DecidableEq, Repr

/-- Handler `list_releases` (app.py lines 98-109): with the `"-"` wildcard
the statement is unfiltered; with a concrete id it filters on
`ReleaseSQL.software_id == software_id`. -/
def list_releases (sel : SoftwareSelector) (db : DB) : List Release :=
  match sel with
  | .wildcard => db.releases.map toReleaseOut
  | .sid u => (db.releases.filter (fun r => r.software_id == u)).map toReleaseOut

/-- Strict single-row fetch `.one()`: raises `NoResultFound` on zero rows
and `MultipleResultsFound` on more than one. -/
def execOne {α : Type} (xs : List α) : Except DBError α :=
  match xs with
  | [] => .error .noResultFound
  | [x] => .ok x
  | _ :: _ :: _ => .error .multipleResultsFound

/-- The two-column select shared by `get_release` and `delete_release`:
rows with `release_id == rid` and `software_id == sid`. -/
def selectReleaseBoth (db : DB) (sid rid : UUID) : List ReleaseSQL :=
  db.releases.filter (fun r => r.release_id == rid && r.software_id == sid)

/-- Handler `get_release` (app.py lines 112-120): strict `.one()` over the
two-column match. -/
def get_release (sid rid : UUID) (db : DB) : Except DBError Release × DB :=
  match execOne (selectReleaseBoth db sid rid) with
  | .error e => (.error e, db)
  | .ok row => (.ok (toReleaseOut row), db)

/-- Handler `delete_release` (app.py lines 123-132): strict `.one()` over
the two-column match, then delete that row and commit. -/
def delete_release (sid rid : UUID) (db : DB) : Except DBError Unit × DB :=
  match execOne (selectReleaseBoth db sid rid) with
  | .error e => (.error e, db)
  | .ok row =>
    (.ok (), { db with releases := db.releases.filter (fun r => r.release_id != row.release_id) })

/-! Concrete sample rows and stores, used to exercise the handlers on
closed inputs. -/

/-- Sample software row with id 1. -/
def swRow1 : SoftwareSQL := ⟨1, "ab", none, "a@b.com"⟩

/-- Sample software row with id 2. -/
def swRow2 : SoftwareSQL := ⟨2, "cd", some "Carol", "c@d.com"⟩

/-- Sample release of software 1. -/
def relRow1 : ReleaseSQL := ⟨10, "1.0", ⟨2024, 1, 2⟩, 1⟩

/-- Second sample release of software 1. -/
def relRow2 : ReleaseSQL := ⟨11, "1.1", ⟨2024, 3, 4⟩, 1⟩

/-- Sample release of software 2. -/
def relRow3 : ReleaseSQL := ⟨12, "0.1", ⟨2023, 5, 6⟩, 2⟩

/-- Sample store: two softwares, software 1 owning two releases and
software 2 owning one. -/
def dbSample : DB := ⟨[swRow1, swRow2], [relRow1, relRow2, relRow3]⟩

/-! Helper lemmas. -/

/-- A primary-key lookup misses exactly when no row carries the key. -/
theorem sessionGetSoftware_eq_none (db : DB) (sid : UUID)
    (h : ∀ r ∈ db.softwares, r.software_id ≠ sid) :
    sessionGetSoftware db sid = none := by
  rw [sessionGetSoftware, List.find?_eq_none]
  intro r hr
  simpa using h r hr

/-- A primary-key lookup on a present key returns some row. -/
theorem sessionGetSoftware_isSome (db : DB) (sid : UUID)
    (h : ∃ r ∈ db.softwares, r.software_id = sid) :
    ∃ row, sessionGetSoftware db sid = some row := by
  obtain ⟨r, hr, hid⟩ := h
  have hs : (db.softwares.find? (fun s => s.software_id == sid)).isSome := by
    rw [List.find?_isSome]
    exact ⟨r, hr, by simp [hid]⟩
  exact Option.isSome_iff_exists.mp hs

/-- C7: for every software_id not present in the store, get_software does
not return a Software: the unguarded lookup result is dereferenced and the
handler fails with the `AttributeError` outcome, leaving the store
unchanged. -/
theorem get_software_missing_id_null_deref (db : DB) (sid : UUID)
    (h : ∀ r ∈ db.softwares, r.software_id ≠ sid) :
    get_software sid db = (.error .attributeError, db) := by
  simp [get_software, sessionGetSoftware_eq_none db sid h]

/-- Witness for C7 at a concrete store: looking up id 5, which no row
carries, hits the null-dereference outcome. -/
theorem get_software_missing_id_null_deref_witness :
    get_software 5 dbSample = (.error .attributeError, dbSample) :=
  get_software_missing_id_null_deref dbSample 5 (by decide)

/-- C10: for every software_id not present in the store, update_software
fails on the unguarded `setattr` over the missing lookup result and
delete_software fails on `session.delete(None)`, both before any commit,
and the store is unchanged by the failed call. -/
theorem update_delete_software_missing_id_unguarded (db : DB) (sid : UUID)
    (p : SoftwareCreate) (h : ∀ r ∈ db.softwares, r.software_id ≠ sid) :
    update_software sid p db = (.error .attributeError, db) ∧
    delete_software sid db = (.error .unmappedInstanceError, db) := by
  have hnone := sessionGetSoftware_eq_none db sid h
  exact ⟨by simp [update_software, hnone], by simp [delete_software, hnone]⟩

/-- Witness for C10 at a concrete store: id 5 is absent, both calls fail
and the store is returned unchanged. -/
theorem update_delete_software_missing_id_unguarded_witness :
    update_software 5 ⟨none, none, "zz", none, "z@z.com"⟩ dbSample =
      (.error .attributeError, dbSample) ∧
    delete_software 5 dbSample = (.error .unmappedInstanceError, dbSample) :=
  update_delete_software_missing_id_unguarded dbSample 5
    ⟨none, none, "zz", none, "z@z.com"⟩ (by decide)

/-- C3: when the store already contains a Software with the payload's
display_name, create_software fails with an integrity (constraint
violation) error and no new Software row is persisted. -/
theorem create_software_duplicate_display_name (db : DB) (p : SoftwareCreate)
    (newId : UUID) (hdup : ∃ r ∈ db.softwares, r.display_name = p.display_name) :
    create_software p newId db = (.error .integrityError, db) := by
  obtain ⟨r, hr, hname⟩ := hdup
  have hany : (db.softwares.any
      (fun s => s.display_name == p.display_name || s.software_id == newId)) = true := by
    rw [List.any_eq_true]
    exact ⟨r, hr, by simp [hname]⟩
  simp [create_software, hany]

/-- Witness for C3 at a concrete store: a second payload reusing display
name "ab" is rejected and the store is unchanged. -/
theorem create_software_duplicate_display_name_witness :
    create_software ⟨none, none, "ab", none, "x@y.com"⟩ 7 dbSample =
      (.error .integrityError, dbSample) :=
  create_software_duplicate_display_name dbSample ⟨none, none, "ab", none, "x@y.com"⟩ 7
    ⟨swRow1, by decide, rfl⟩

/-- C5: list_releases with the wildcard path segment returns exactly the
image of every Release row in the store, and with a concrete software id
exactly the image of the rows whose software_id equals that id. -/
theorem list_releases_wildcard_and_specific (db : DB) (u : UUID) (out : Release) :
    (out ∈ list_releases .wildcard db ↔ ∃ r ∈ db.releases, toReleaseOut r = out) ∧
    (out ∈ list_releases (.sid u) db ↔
      ∃ r ∈ db.releases, r.software_id = u ∧ toReleaseOut r = out) := by
  constructor
  · simp [list_releases]
  · simp only [list_releases, List.mem_map, List.mem_filter]
    constructor
    · rintro ⟨r, ⟨hr, hu⟩, hout⟩
      exact ⟨r, hr, by simpa using hu, hout⟩
    · rintro ⟨r, hr, hu, hout⟩
      exact ⟨r, ⟨hr, by simp [hu]⟩, hout⟩

/-- C9 counterexample: with the provided display_name string "" (the empty
string), list_softwares returns a Software whose display_name is not "",
although no stored row has display_name "": the Python truthiness guard
`if display_name:` skips the filter for the empty string, so the call does
not return exactly the rows whose display_name equals the provided
string. -/
theorem list_softwares_empty_string_filter_skipped :
    toSoftwareOut swRow1 ∈ list_softwares (some "") dbSample ∧
    ∀ r ∈ dbSample.softwares, r.display_name ≠ "" := by
  decide

/-- C9 amended: list_softwares with no display_name argument, or with the
empty string (which Python truthiness treats as no filter), returns every
Software in the store; for every non-empty display_name d it returns
exactly the Softwares whose display_name equals d. -/
theorem list_softwares_filter_semantics (db : DB) (d : Option String) (out : Software) :
    out ∈ list_softwares d db ↔
      match d with
      | none => ∃ r ∈ db.softwares, toSoftwareOut r = out
      | some s =>
        if s = "" then ∃ r ∈ db.softwares, toSoftwareOut r = out
        else ∃ r ∈ db.softwares, r.display_name = s ∧ toSoftwareOut r = out := by
  cases d with
  | none => simp [list_softwares]
  | some s =>
    by_cases hs : s = ""
    · simp [list_softwares, hs]
    · simp only [list_softwares, if_neg hs, List.mem_map, List.mem_filter]
      constructor
      · rintro ⟨r, ⟨hr, hd⟩, hout⟩
        exact ⟨r, hr, by simpa using hd, hout⟩
      · rintro ⟨r, hr, hd, hout⟩
        exact ⟨r, ⟨hr, by simp [hd]⟩, hout⟩

/-- C1: delete_software on the identifier of a stored Software succeeds,
removes the Software row and every Release row whose software_id
references it — afterwards no Release with that software_id remains —
while every other software and release row survives. -/
theorem delete_software_cascade (db : DB) (sid : UUID)
    (h : ∃ r ∈ db.softwares, r.software_id = sid) :
    (delete_software sid db).1 = .ok () ∧
    (∀ r ∈ (delete_software sid db).2.softwares, r.software_id ≠ sid) ∧
    (∀ r ∈ (delete_software sid db).2.releases, r.software_id ≠ sid) ∧
    (∀ r ∈ db.softwares, r.software_id ≠ sid → r ∈ (delete_software sid db).2.softwares) ∧
    (∀ r ∈ db.releases, r.software_id ≠ sid → r ∈ (delete_software sid db).2.releases) := by
  obtain ⟨row, hsome⟩ := sessionGetSoftware_isSome db sid h
  refine ⟨by simp [delete_software, hsome], ?_, ?_, ?_, ?_⟩
  · intro r hr
    simp only [delete_software, hsome, List.mem_filter] at hr
    simpa using hr.2
  · intro r hr
    simp only [delete_software, hsome, List.mem_filter] at hr
    simpa using hr.2
  · intro r hr hne
    simp only [delete_software, hsome, List.mem_filter]
    exact ⟨hr, by simpa using hne⟩
  · intro r hr hne
    simp only [delete_software, hsome, List.mem_filter]
    exact ⟨hr, by simpa using hne⟩

/-- Witness for C1 at the sample store: deleting software 1, which owns
two of the three releases, removes it and exactly its releases. -/
theorem delete_software_cascade_witness :
    (delete_software 1 dbSample).1 = .ok () ∧
    (∀ r ∈ (delete_software 1 dbSample).2.softwares, r.software_id ≠ 1) ∧
    (∀ r ∈ (delete_software 1 dbSample).2.releases, r.software_id ≠ 1) ∧
    (∀ r ∈ dbSample.softwares, r.software_id ≠ 1 → r ∈ (delete_software 1 dbSample).2.softwares) ∧
    (∀ r ∈ dbSample.releases, r.software_id ≠ 1 → r ∈ (delete_software 1 dbSample).2.releases) :=
  delete_software_cascade dbSample 1 ⟨swRow1, by decide, rfl⟩

/-- C4: the code does not reject a Release created under a nonexistent
software_id.  On the empty store — which contains no Software at all — a
valid ReleaseCreate payload posted under software_id 1 returns the created
representation and persists an orphaned Release row, because the SQLite
engine in src/swcat/db/__init__.py never enables foreign-key enforcement.
The claim (and the spec invariant) says this call must fail with an
integrity error and persist nothing. -/
theorem create_release_orphan_persisted :
    ReleaseCreate.isValid ⟨"1.0", ⟨2024, 1, 2⟩⟩ = true ∧
    (∀ s ∈ (⟨[], []⟩ : DB).softwares, s.software_id ≠ 1) ∧
    (create_release 1 ⟨"1.0", ⟨2024, 1, 2⟩⟩ 10 ⟨[], []⟩).1 =
      .ok ⟨"1.0", ⟨2024, 1, 2⟩, 10, 1⟩ ∧
    (⟨10, "1.0", ⟨2024, 1, 2⟩, 1⟩ : ReleaseSQL) ∈
      (create_release 1 ⟨"1.0", ⟨2024, 1, 2⟩⟩ 10 ⟨[], []⟩).2.releases :=
  ⟨by decide, by decide, rfl, by simp [create_release]⟩

/-- C2: for every valid SoftwareCreate payload, a successful
create_software followed by get_software on the returned software_id
yields exactly the created representation — every field, code_url and
description included, is identical. -/
theorem create_get_software_roundtrip (db : DB) (p : SoftwareCreate) (newId : UUID)
    (out : Software) (db' : DB) (_hv : p.isValid = true)
    (h : create_software p newId db = (.ok out, db')) :
    get_software out.software_id db' = (.ok out, db') := by
  simp only [create_software] at h
  split at h
  · exact absurd h (by simp)
  · rename_i hc
    simp only [Prod.mk.injEq, Except.ok.injEq] at h
    obtain ⟨hout, hdb⟩ := h
    subst hout
    subst hdb
    have hnone : db.softwares.find? (fun r => r.software_id == newId) = none := by
      rw [List.find?_eq_none]
      intro r hr hid
      exact hc (List.any_eq_true.mpr ⟨r, hr, by simp [hid]⟩)
    simp [get_software, sessionGetSoftware, toSoftwareOut, hnone]

/-- Witness for C2: creating software "ef" in the sample store with id 3,
then fetching id 3, returns the same representation. -/
theorem create_get_software_roundtrip_witness :
    get_software
        ((⟨none, none, "ef", none, "e@f.com", 3⟩ : Software).software_id)
        ⟨[swRow1, swRow2, ⟨3, "ef", none, "e@f.com"⟩], [relRow1, relRow2, relRow3]⟩ =
      (.ok ⟨none, none, "ef", none, "e@f.com", 3⟩,
        ⟨[swRow1, swRow2, ⟨3, "ef", none, "e@f.com"⟩], [relRow1, relRow2, relRow3]⟩) :=
  create_get_software_roundtrip dbSample
    ⟨some "http://e.x", some "demo", "ef", none, "e@f.com"⟩ 3
    ⟨none, none, "ef", none, "e@f.com", 3⟩
    ⟨[swRow1, swRow2, ⟨3, "ef", none, "e@f.com"⟩], [relRow1, relRow2, relRow3]⟩
    (by decide) (by decide)

/-- A primary-key find? over the list produced by the point update of key
`sid` returns the updated row exactly when the original find? hit. -/
theorem find?_update_map (l : List SoftwareSQL) (sid : UUID) (row' : SoftwareSQL)
    (h : row'.software_id = sid) :
    ((l.map (fun r => if r.software_id == sid then row' else r)).find?
        (fun r => r.software_id == sid)) =
      (l.find? (fun r => r.software_id == sid)).map
        (fun r => if r.software_id == sid then row' else r) := by
  rw [List.find?_map]
  have hp : ((fun r => r.software_id == sid) ∘
      fun r => if (r.software_id == sid) = true then row' else r) =
      (fun r => r.software_id == sid) := by
    funext r
    by_cases hr : r.software_id = sid
    · simp [hr, h]
    · simp [hr]
  rw [hp]

/-- C6: for every stored Software and every payload whose display_name
collides with no other stored row, update_software succeeds, the returned
and re-fetched representation carries exactly the payload's display_name,
maintainer_name and maintainer_email, and the software_id, code_url and
description observed through get_software are the same before and after
the update. -/
theorem update_software_three_fields_frame (db : DB) (sid : UUID) (p : SoftwareCreate)
    (row : SoftwareSQL) (hrow : sessionGetSoftware db sid = some row)
    (hname : ∀ r ∈ db.softwares, r.software_id ≠ sid → r.display_name ≠ p.display_name) :
    (update_software sid p db).1 =
      .ok ⟨none, none, p.display_name, p.maintainer_name, p.maintainer_email, sid⟩ ∧
    (get_software sid (update_software sid p db).2).1 =
      .ok ⟨none, none, p.display_name, p.maintainer_name, p.maintainer_email, sid⟩ ∧
    ((get_software sid (update_software sid p db).2).1.map
        (fun s => (s.software_id, s.code_url, s.description)) =
      (get_software sid db).1.map (fun s => (s.software_id, s.code_url, s.description))) := by
  have hid : row.software_id = sid := by
    have := List.find?_some hrow
    simpa using this
  have hany : (db.softwares.any
      (fun r => r.software_id != sid && r.display_name == p.display_name)) = false := by
    rw [List.any_eq_false]
    intro r hr
    by_cases hrs : r.software_id = sid
    · simp [hrs]
    · simp [hrs, hname r hr hrs]
  have hupd : update_software sid p db =
      (.ok (toSoftwareOut { row with display_name := p.display_name, maintainer_name := p.maintainer_name, maintainer_email := p.maintainer_email }),
        { db with softwares := db.softwares.map (fun r => if r.software_id == sid then { row with display_name := p.display_name, maintainer_name := p.maintainer_name, maintainer_email := p.maintainer_email } else r) }) := by
    simp [update_software, hrow, hany]
  have hget : sessionGetSoftware
      { db with softwares := db.softwares.map (fun r => if r.software_id == sid then { row with display_name := p.display_name, maintainer_name := p.maintainer_name, maintainer_email := p.maintainer_email } else r) } sid =
      some { row with display_name := p.display_name, maintainer_name := p.maintainer_name, maintainer_email := p.maintainer_email } := by
    have hrow' : db.softwares.find? (fun r => r.software_id == sid) = some row := hrow
    simp only [sessionGetSoftware]
    rw [find?_update_map _ _ _ (by simpa using hid), hrow']
    simp [hid]
  refine ⟨?_, ?_, ?_⟩
  · rw [hupd]
    simp [toSoftwareOut, hid]
  · rw [hupd]
    simp only [get_software]
    rw [hget]
    simp [toSoftwareOut, hid]
  · rw [hupd]
    simp only [get_software]
    rw [hget, hrow]
    simp [Except.map, toSoftwareOut, hid]

/-- Witness for C6 at the sample store: updating software 2 to display
name "zz" keeps its id and its (absent) code_url and description. -/
theorem update_software_three_fields_frame_witness :
    (update_software 2 ⟨some "http://x.y", some "docs", "zz", some "Mia", "m@e.com"⟩ dbSample).1 =
      .ok ⟨none, none, "zz", some "Mia", "m@e.com", 2⟩ ∧
    (get_software 2
        (update_software 2 ⟨some "http://x.y", some "docs", "zz", some "Mia", "m@e.com"⟩ dbSample).2).1 =
      .ok ⟨none, none, "zz", some "Mia", "m@e.com", 2⟩ ∧
    ((get_software 2
        (update_software 2 ⟨some "http://x.y", some "docs", "zz", some "Mia", "m@e.com"⟩ dbSample).2).1.map
        (fun s => (s.software_id, s.code_url, s.description)) =
      (get_software 2 dbSample).1.map (fun s => (s.software_id, s.code_url, s.description))) :=
  update_software_three_fields_frame dbSample 2
    ⟨some "http://x.y", some "docs", "zz", some "Mia", "m@e.com"⟩ swRow2
    (by decide) (by decide)

/-- Membership in the two-column select of `get_release` and
`delete_release`. -/
theorem mem_selectReleaseBoth (db : DB) (sid rid : UUID) (r : ReleaseSQL) :
    r ∈ selectReleaseBoth db sid rid ↔
      r ∈ db.releases ∧ r.release_id = rid ∧ r.software_id = sid := by
  simp [selectReleaseBoth, List.mem_filter, and_assoc]

/-- Over a store whose release primary keys are pairwise distinct, the
two-column select returns either nothing (no row matches on both columns)
or exactly the single matching row. -/
theorem selectReleaseBoth_cases (db : DB) (sid rid : UUID)
    (hwf : db.releases.Pairwise (fun a b => a.release_id ≠ b.release_id)) :
    (selectReleaseBoth db sid rid = [] ∧
      ¬ ∃ r ∈ db.releases, r.release_id = rid ∧ r.software_id = sid) ∨
    (∃ r, selectReleaseBoth db sid rid = [r] ∧ r ∈ db.releases ∧
      r.release_id = rid ∧ r.software_id = sid) := by
  rcases hsel : selectReleaseBoth db sid rid with _ | ⟨a, _ | ⟨b, t⟩⟩
  · left
    refine ⟨rfl, ?_⟩
    rintro ⟨r, hr, h1, h2⟩
    have hmem : r ∈ selectReleaseBoth db sid rid :=
      (mem_selectReleaseBoth db sid rid r).mpr ⟨hr, h1, h2⟩
    rw [hsel] at hmem
    simp at hmem
  · right
    have ha : a ∈ selectReleaseBoth db sid rid := by rw [hsel]; simp
    obtain ⟨hmem, h1, h2⟩ := (mem_selectReleaseBoth db sid rid a).mp ha
    exact ⟨a, rfl, hmem, h1, h2⟩
  · exfalso
    have hsub : (selectReleaseBoth db sid rid).Pairwise
        (fun x y => x.release_id ≠ y.release_id) :=
      hwf.sublist (by rw [selectReleaseBoth]; exact List.filter_sublist _)
    rw [hsel] at hsub
    have hab : a.release_id ≠ b.release_id :=
      (List.pairwise_cons.mp hsub).1 b (by simp)
    have ha : a ∈ selectReleaseBoth db sid rid := by rw [hsel]; simp
    have hb : b ∈ selectReleaseBoth db sid rid := by rw [hsel]; simp
    obtain ⟨-, ha1, -⟩ := (mem_selectReleaseBoth db sid rid a).mp ha
    obtain ⟨-, hb1, -⟩ := (mem_selectReleaseBoth db sid rid b).mp hb
    exact hab (ha1.trans hb1.symm)

/-- C8: over a store with pairwise-distinct release ids, get_release and
delete_release succeed exactly when some Release matches both path
identifiers (release_id and software_id); when no such row exists the
strict single-row fetch yields the not-found failure and, for
delete_release as well as get_release, the store is unchanged. -/
theorem get_delete_release_two_column (db : DB) (sid rid : UUID)
    (hwf : db.releases.Pairwise (fun a b => a.release_id ≠ b.release_id)) :
    ((∃ out, (get_release sid rid db).1 = .ok out) ↔
      ∃ r ∈ db.releases, r.release_id = rid ∧ r.software_id = sid) ∧
    (((delete_release sid rid db).1 = .ok ()) ↔
      ∃ r ∈ db.releases, r.release_id = rid ∧ r.software_id = sid) ∧
    ((¬ ∃ r ∈ db.releases, r.release_id = rid ∧ r.software_id = sid) →
      get_release sid rid db = (.error .noResultFound, db) ∧
      delete_release sid rid db = (.error .noResultFound, db)) := by
  rcases selectReleaseBoth_cases db sid rid hwf with ⟨hsel, hno⟩ | ⟨r, hsel, hmem, h1, h2⟩
  · have hg : get_release sid rid db = (.error .noResultFound, db) := by
      simp [get_release, hsel, execOne]
    have hd : delete_release sid rid db = (.error .noResultFound, db) := by
      simp [delete_release, hsel, execOne]
    refine ⟨?_, ?_, fun _ => ⟨hg, hd⟩⟩
    · simp only [hg]
      constructor
      · rintro ⟨out, hout⟩
        simp at hout
      · intro hex
        exact absurd hex hno
    · simp only [hd]
      constructor
      · intro hout
        simp at hout
      · intro hex
        exact absurd hex hno
  · have hg : get_release sid rid db = (.ok (toReleaseOut r), db) := by
      simp [get_release, hsel, execOne]
    have hd : (delete_release sid rid db).1 = .ok () := by
      simp [delete_release, hsel, execOne]
    refine ⟨?_, ?_, fun hno => absurd ⟨r, hmem, h1, h2⟩ hno⟩
    · simp only [hg]
      exact ⟨fun _ => ⟨r, hmem, h1, h2⟩, fun _ => ⟨toReleaseOut r, rfl⟩⟩
    · simp only [hd]
      exact ⟨fun _ => ⟨r, hmem, h1, h2⟩, fun _ => trivial⟩

/-- Witness for C8 at the sample store with identifiers software 1 and
release 10 (a matching pair). -/
theorem get_delete_release_two_column_witness :
    ((∃ out, (get_release 1 10 dbSample).1 = .ok out) ↔
      ∃ r ∈ dbSample.releases, r.release_id = 10 ∧ r.software_id = 1) ∧
    (((delete_release 1 10 dbSample).1 = .ok ()) ↔
      ∃ r ∈ dbSample.releases, r.release_id = 10 ∧ r.software_id = 1) ∧
    ((¬ ∃ r ∈ dbSample.releases, r.release_id = 10 ∧ r.software_id = 1) →
      get_release 1 10 dbSample = (.error .noResultFound, dbSample) ∧
      delete_release 1 10 dbSample = (.error .noResultFound, dbSample)) :=
  get_delete_release_two_column dbSample 1 10 (by decide)

end Swcat
